import Mathlib

/-
A shallow embedding of the language-model graph construction in
src/language_model/model/language_model.py (class LanguageModel).

Tensors are modelled as rational-valued functions over an abstract index
shape; the surrounding deep-learning framework (RNN cell kernels, the dense
projection, sparse softmax cross-entropy, gradient computation, optimizer
slot updates, the vocabulary lookup tables and the data pipeline) is the
external numeric substrate and enters as explicit function parameters
bundled in a `Framework` record.  Python exceptions raised during graph
construction become `Except String` with the exception class recorded in
the message.  Every definition mirrors the source function of the same
name; comments cite the corresponding source behaviour.
-/

namespace LM

/-- Dense tensors over an abstract index shape, with rational entries. -/
def Tensor (i : Type) : Type := i → ℚ

/-- Hyperparameters read by LanguageModel, with the source's field names. -/
structure Hyperparams where
  model_encoder_num_layer : ℕ
  model_encoder_encoding_include_input : Bool
  model_encoder_encoding_type : String
  model_decoder_prediction_type : String
  model_pretrained_embedding : Bool
  train_optimizer_learning_rate : ℝ
  train_optimizer_decay_mode : String
  train_optimizer_decay_rate : ℝ
  train_optimizer_decay_step : ℝ
  train_optimizer_decay_start_step : ℕ
  train_optimizer_type : String
  train_optimizer_momentum_beta : ℝ
  train_optimizer_rmsprop_beta : ℝ
  train_optimizer_rmsprop_epsilon : ℝ
  train_optimizer_adadelta_rho : ℝ
  train_optimizer_adadelta_epsilon : ℝ
  train_optimizer_adagrad_init_accumulator : ℝ
  train_optimizer_adam_beta_1 : ℝ
  train_optimizer_adam_beta_2 : ℝ
  train_optimizer_adam_epsilon : ℝ
  train_clip_norm : ℝ
  train_ckpt_output_dir : String

/-- tf.reduce_mean over axis 0 of a stacked list of equally-shaped tensors:
the elementwise mean of the list entries. -/
def reduce_mean {i : Type} (ts : List (Tensor i)) : Tensor i :=
  fun x => (ts.map (fun t => t x)).sum / (ts.length : ℚ)

/-- tf.sequence_mask(logit_length, maxlen=T) cast to the logit dtype:
entry (b, t) is 1 when t < logit_length b and 0 otherwise. -/
def sequence_mask {B T : ℕ} (lengths : Fin B → ℕ) : Fin B → Fin T → ℚ :=
  fun b t => if (t : ℕ) < lengths b then 1 else 0

/-- tf.contrib.seq2seq.sequence_loss with average_across_timesteps=False and
average_across_batch=True: for each timestep the weighted cross-entropies are
summed over the batch and divided by the total weight at that timestep.
`sxent` models sparse_softmax_cross_entropy_with_logits (a framework
primitive) applied to one logit row and one integer target.  The framework's
1e-12 anti-division-by-zero epsilon is modelled by rational division, whose
value at a zero denominator is 0, matching the framework's 0/1e-12 = 0 for
all-zero weight columns. -/
def sequence_loss {B T : ℕ} {V : Type} (sxent : (V → ℚ) → ℕ → ℚ)
    (logits : Fin B → Fin T → V → ℚ) (targets : Fin B → Fin T → ℕ)
    (weights : Fin B → Fin T → ℚ) : Fin T → ℚ :=
  fun t => (∑ b, sxent (logits b t) (targets b t) * weights b t) / (∑ b, weights b t)

/-- LanguageModel._compute_loss: mask the positions past each sequence's
length, take the batch-averaged cross-entropy per timestep, and sum the
per-timestep values (tf.reduce_sum of the sequence_loss vector). -/
def compute_loss {B T : ℕ} {V : Type} (sxent : (V → ℚ) → ℕ → ℚ)
    (logit : Fin B → Fin T → V → ℚ) (label : Fin B → Fin T → ℕ)
    (logit_length : Fin B → ℕ) : ℚ :=
  ∑ t, sequence_loss sxent logit label (sequence_mask logit_length) t

/-- LanguageModel._convert_encoder_output: select the aggregation of the
encoder layer outputs by the configured encoding type.  Python list indexing
[-1] and [0] raises IndexError on an empty list; an unknown encoding type
raises ValueError. -/
def convert_encoder_output {i : Type} (encoding_type : String)
    (encoder_layer_output : List (Tensor i)) : Except String (Tensor i) :=
  if encoding_type = "top" then
    match encoder_layer_output.getLast? with
    | some x => Except.ok x
    | none => Except.error "IndexError: list index out of range"
  else if encoding_type = "bottom" then
    match encoder_layer_output.head? with
    | some x => Except.ok x
    | none => Except.error "IndexError: list index out of range"
  else if encoding_type = "average" then
    Except.ok (reduce_mean encoder_layer_output)
  else
    Except.error ("ValueError: unsupported encoding type " ++ encoding_type)

/-- One record per call of LanguageModel._build_rnn_layer: which layer id and
which direction string the layer was created with. -/
structure RnnLayerSpec where
  layer_id : ℕ
  direction : String
deriving DecidableEq

/-- LanguageModel._build_rnn_layer: create one RNN cell and run
tf.nn.dynamic_rnn over the layer input with the given sequence lengths.
`rnn` is the framework substrate mapping (input, lengths, layer id,
direction) to (layer output, layer final state). -/
def build_rnn_layer {i : Type} {B : ℕ}
    (rnn : Tensor i → (Fin B → ℕ) → ℕ → String → Tensor i × Tensor i)
    (layer_input : Tensor i) (layer_input_length : Fin B → ℕ)
    (layer_id : ℕ) (layer_direction : String) : Tensor i × Tensor i :=
  rnn layer_input layer_input_length layer_id layer_direction

/-- The per-layer accumulation of LanguageModel._build_encoder: the output
list, the final-state list, and a trace of the created layers. -/
structure EncoderTrace (i : Type) where
  outputs : List (Tensor i)
  final_states : List (Tensor i)
  layers : List RnnLayerSpec

/-- The `for i in range(num_layer)` loop of LanguageModel._build_encoder,
started at layer id `k` with `cnt` layers left: each layer consumes the
previous layer's output (`layer_input = layer_output`), and every layer is
created with direction "forward". -/
def encoder_layer_loop {i : Type} {B : ℕ}
    (rnn : Tensor i → (Fin B → ℕ) → ℕ → String → Tensor i × Tensor i)
    (layer_input_length : Fin B → ℕ) (layer_input : Tensor i)
    (k cnt : ℕ) : EncoderTrace i :=
  match cnt with
  | 0 => { outputs := [], final_states := [], layers := [] }
  | Nat.succ c =>
    let r := build_rnn_layer rnn layer_input layer_input_length k "forward"
    let rest := encoder_layer_loop rnn layer_input_length r.1 (k + 1) c
    { outputs := r.1 :: rest.outputs,
      final_states := r.2 :: rest.final_states,
      layers := { layer_id := k, direction := "forward" } :: rest.layers }

/-- LanguageModel._build_encoder: optionally prepend the raw encoder input to
the output list (model_encoder_encoding_include_input), then stack
model_encoder_num_layer RNN layers starting from the encoder input. -/
def build_encoder {i : Type} {B : ℕ} (hp : Hyperparams)
    (rnn : Tensor i → (Fin B → ℕ) → ℕ → String → Tensor i × Tensor i)
    (encoder_input : Tensor i) (encoder_input_length : Fin B → ℕ) :
    EncoderTrace i :=
  let t := encoder_layer_loop rnn encoder_input_length encoder_input 0
    hp.model_encoder_num_layer
  { outputs :=
      (if hp.model_encoder_encoding_include_input = true then [encoder_input] else [])
        ++ t.outputs,
    final_states := t.final_states,
    layers := t.layers }

/-- The output of a stack of `n` forward RNN layers applied to `input`, the
first of them created with layer id `k` (so layer ids run k, k+1, ...). -/
def stacked_output {i : Type} {B : ℕ}
    (rnn : Tensor i → (Fin B → ℕ) → ℕ → String → Tensor i × Tensor i)
    (layer_input_length : Fin B → ℕ) (input : Tensor i) (k : ℕ) : ℕ → Tensor i
  | 0 => input
  | Nat.succ n =>
    (build_rnn_layer rnn (stacked_output rnn layer_input_length input k n)
      layer_input_length (k + n) "forward").1

/-- The six optimizer kinds LanguageModel._initialize_optimizer can build,
each carrying its own hyperparameters and the (decayed, step-dependent)
learning rate it was constructed with. -/
inductive Optimizer where
  | sgd (learning_rate : ℕ → ℝ)
  | momentum (learning_rate : ℕ → ℝ) (momentum_beta : ℝ)
  | rmsprop (learning_rate : ℕ → ℝ) (decay : ℝ) (epsilon : ℝ)
  | adadelta (learning_rate : ℕ → ℝ) (rho : ℝ) (epsilon : ℝ)
  | adagrad (learning_rate : ℕ → ℝ) (init_accumulator : ℝ)
  | adam (learning_rate : ℕ → ℝ) (beta1 : ℝ) (beta2 : ℝ) (epsilon : ℝ)

/-- tf.train.exponential_decay with the default staircase=False:
lr * rate ^ (step / decay_steps), with a real-valued exponent. -/
noncomputable def exponential_decay (lr rate dstep : ℝ) (g : ℤ) : ℝ :=
  lr * rate ^ ((g : ℝ) / dstep)

/-- tf.train.inverse_time_decay with the default staircase=False:
lr / (1 + rate * step / decay_steps). -/
noncomputable def inverse_time_decay (lr rate dstep : ℝ) (g : ℤ) : ℝ :=
  lr / (1 + rate * ((g : ℝ) / dstep))

/-- LanguageModel._apply_learning_rate_decay: pick the decay schedule by
train_optimizer_decay_mode (raising ValueError for an unknown mode at
construction time), evaluate it at global_step - decay_start_step, and guard
it with tf.cond so that steps before decay_start_step use the undecayed
learning rate.  The result is the graph node as a function of the runtime
global_step value. -/
noncomputable def apply_learning_rate_decay (hp : Hyperparams) :
    Except String (ℕ → ℝ) :=
  if hp.train_optimizer_decay_mode = "exponential_decay" then
    Except.ok (fun step =>
      if step < hp.train_optimizer_decay_start_step then
        hp.train_optimizer_learning_rate
      else
        exponential_decay hp.train_optimizer_learning_rate
          hp.train_optimizer_decay_rate hp.train_optimizer_decay_step
          ((step : ℤ) - (hp.train_optimizer_decay_start_step : ℤ)))
  else if hp.train_optimizer_decay_mode = "inverse_time_decay" then
    Except.ok (fun step =>
      if step < hp.train_optimizer_decay_start_step then
        hp.train_optimizer_learning_rate
      else
        inverse_time_decay hp.train_optimizer_learning_rate
          hp.train_optimizer_decay_rate hp.train_optimizer_decay_step
          ((step : ℤ) - (hp.train_optimizer_decay_start_step : ℤ)))
  else
    Except.error ("ValueError: unsupported decay mode " ++ hp.train_optimizer_decay_mode)

/-- LanguageModel._initialize_optimizer: dispatch on train_optimizer_type,
building each of the six supported optimizers with its own hyperparameters
and the given learning rate, and raising ValueError otherwise. -/
def initOptimizer (hp : Hyperparams) (learning_rate : ℕ → ℝ) :
    Except String Optimizer :=
  if hp.train_optimizer_type = "sgd" then
    Except.ok (Optimizer.sgd learning_rate)
  else if hp.train_optimizer_type = "momentum" then
    Except.ok (Optimizer.momentum learning_rate hp.train_optimizer_momentum_beta)
  else if hp.train_optimizer_type = "rmsprop" then
    Except.ok (Optimizer.rmsprop learning_rate hp.train_optimizer_rmsprop_beta
      hp.train_optimizer_rmsprop_epsilon)
  else if hp.train_optimizer_type = "adadelta" then
    Except.ok (Optimizer.adadelta learning_rate hp.train_optimizer_adadelta_rho
      hp.train_optimizer_adadelta_epsilon)
  else if hp.train_optimizer_type = "adagrad" then
    Except.ok (Optimizer.adagrad learning_rate
      hp.train_optimizer_adagrad_init_accumulator)
  else if hp.train_optimizer_type = "adam" then
    Except.ok (Optimizer.adam learning_rate hp.train_optimizer_adam_beta_1
      hp.train_optimizer_adam_beta_2 hp.train_optimizer_adam_epsilon)
  else
    Except.error ("ValueError: unsupported optimizer type " ++ hp.train_optimizer_type)

/-- tf.global_norm: the l2 norm of the flattened concatenation of all
gradient tensors (each gradient modelled by its flattened components'
contribution, here one real component per trainable variable). -/
noncomputable def global_norm (t_list : List ℝ) : ℝ :=
  Real.sqrt ((t_list.map (fun g => g ^ 2)).sum)

/-- tf.clip_by_global_norm: return the input list unchanged when its global
norm is at most clip_norm, and otherwise scale every entry by
clip_norm / global_norm; the second component is the (unclipped) global
norm, as returned by the framework. -/
noncomputable def clip_by_global_norm (t_list : List ℝ) (clip_norm : ℝ) :
    List ℝ × ℝ :=
  let use_norm := global_norm t_list
  (if use_norm ≤ clip_norm then t_list
   else t_list.map (fun g => g * (clip_norm / use_norm)), use_norm)

/-- LanguageModel._minimize_loss: split compute_gradients' (gradient,
variable) pairs, jointly clip the gradients by tf.clip_by_global_norm with
train_clip_norm, and apply the clipped pairs with
optimizer.apply_gradients(..., global_step=self.global_step), which writes
the updated variables and increments global_step by one.  `opt_apply` is the
optimizer's per-variable slot update (a framework primitive); the result is
((updated variables, new global_step), clipped gradients, gradient norm),
mirroring the source's (update_model, clipped_gradients, gradient_norm). -/
noncomputable def minimize_loss (opt_apply : ℝ → ℝ → ℝ)
    (grads_and_vars : List (ℝ × ℝ)) (clip_norm : ℝ) (global_step : ℕ) :
    (List ℝ × ℕ) × List ℝ × ℝ :=
  let gradients := grads_and_vars.map Prod.fst
  let var_list := grads_and_vars.map Prod.snd
  let clipped := clip_by_global_norm gradients clip_norm
  let updated := (clipped.1.zip var_list).map (fun gv => opt_apply gv.1 gv.2)
  ((updated, global_step + 1), clipped.1, clipped.2)

/-- The framework and data-pipeline substrate the graph construction is
parameterized over: the RNN cell + dynamic_rnn kernel, the decoder's dense
projection, sparse softmax cross-entropy, the shape view of the decoder
output as (batch, time, vocab) logits, the pipeline's output labels,
argmax / multinomial sampling, the inverted vocabulary lookup, gradient
computation for the trainable variables, and the optimizer's per-variable
update rule. -/
structure Framework (B T : ℕ) (i s V : Type) where
  rnn_cell : Tensor i → (Fin B → ℕ) → ℕ → String → Tensor i × Tensor i
  dense_proj : Tensor i → Tensor i
  sxent : (V → ℚ) → ℕ → ℚ
  as_logits : Tensor i → Fin B → Fin T → V → ℚ
  labels : Fin B → Fin T → ℕ
  argmax_of : Tensor i → s
  multinomial_of : Tensor i → s
  lookup : s → String
  grads_of : ℚ → List (ℝ × ℝ)
  opt_apply : Optimizer → ℝ → ℝ → ℝ

/-- LanguageModel._build_encoding_graph: embedding (the looked-up input
embedding is `input_embedding`), encoder stack, then aggregation of the
encoder layer outputs. -/
def build_encoding_graph {B T : ℕ} {i s V : Type} (hp : Hyperparams)
    (fw : Framework B T i s V) (input_embedding : Tensor i)
    (input_length : Fin B → ℕ) : Except String (Tensor i) :=
  convert_encoder_output hp.model_encoder_encoding_type
    (build_encoder hp fw.rnn_cell input_embedding input_length).outputs

/-- LanguageModel._build_graph: the encoding graph followed by the decoder's
dense projection (LanguageModel._build_decoder). -/
def build_graph {B T : ℕ} {i s V : Type} (hp : Hyperparams)
    (fw : Framework B T i s V) (input_embedding : Tensor i)
    (input_length : Fin B → ℕ) : Except String (Tensor i) :=
  match build_encoding_graph hp fw input_embedding input_length with
  | Except.error e => Except.error e
  | Except.ok encoder_output => Except.ok (fw.dense_proj encoder_output)

/-- LanguageModel._generate_prediction: argmax sampling for prediction type
"max", multinomial sampling for "sample", ValueError otherwise; the sampled
ids are mapped to words through the inverted vocabulary index. -/
def generate_prediction {B T : ℕ} {i s V : Type} (hp : Hyperparams)
    (fw : Framework B T i s V) (logit : Tensor i) :
    Except String (s × String) :=
  if hp.model_decoder_prediction_type = "max" then
    let sample_id := fw.argmax_of logit
    Except.ok (sample_id, fw.lookup sample_id)
  else if hp.model_decoder_prediction_type = "sample" then
    let sample_id := fw.multinomial_of logit
    Except.ok (sample_id, fw.lookup sample_id)
  else
    Except.error ("ValueError: unsupported prediction type " ++ hp.model_decoder_prediction_type)

/-- The graph artifacts LanguageModel.__init__ may attach to the model
object, each `none` / `false` unless the constructor's mode-dependent
branches set it. -/
structure BuiltModel (B : ℕ) (i s : Type) where
  encoder_output : Option (Tensor i) := none
  encoder_output_length : Option (Fin B → ℕ) := none
  decoder_built : Bool := false
  logit : Option (Tensor i) := none
  infer_sample_id : Option s := none
  infer_sample_word : Option String := none
  infer_summary_built : Bool := false
  train_loss : Option ℚ := none
  decayed_learning_rate : Option (ℕ → ℝ) := none
  optimizer : Option Optimizer := none
  update_model : Option (ℕ → List ℝ × ℕ) := none
  train_summary : Option (List String) := none

/-- LanguageModel.__init__, lines 61-117: mode "encode" builds only the
encoding graph (no decoder) and exposes encoder_output together with
encoder_output_length; every other mode builds the full graph
(embedding + encoder + decoder projection) producing the logit; mode
"infer" additionally samples sample_id / sample_word and creates the infer
summary; modes "train" and "eval" additionally build the masked sequence
loss, the decayed learning rate, the optimizer, the loss-minimizing update
operation, and the train summary.  The source's two sequential `if mode`
blocks after the encode/else split are nested into the else branch here,
which is equivalent because a mode string equal to "encode" is never
"infer", "train" or "eval". -/
noncomputable def init {B T : ℕ} {i s V : Type} (hp : Hyperparams)
    (fw : Framework B T i s V) (input_embedding : Tensor i)
    (text_input_length : Fin B → ℕ) (logit_length : Fin B → ℕ)
    (mode : String) : Except String (BuiltModel B i s) :=
  if mode = "encode" then
    match build_encoding_graph hp fw input_embedding text_input_length with
    | Except.error e => Except.error e
    | Except.ok encoder_output =>
      Except.ok { encoder_output := some encoder_output,
                  encoder_output_length := some text_input_length }
  else
    match build_graph hp fw input_embedding text_input_length with
    | Except.error e => Except.error e
    | Except.ok logit =>
      let m0 : BuiltModel B i s := { decoder_built := true, logit := some logit }
      let step1 : Except String (BuiltModel B i s) :=
        if mode = "infer" then
          match generate_prediction hp fw logit with
          | Except.error e => Except.error e
          | Except.ok sw =>
            Except.ok { m0 with infer_sample_id := some sw.1,
                                infer_sample_word := some sw.2,
                                infer_summary_built := true }
        else Except.ok m0
      match step1 with
      | Except.error e => Except.error e
      | Except.ok m1 =>
        if mode = "train" ∨ mode = "eval" then
          let loss := compute_loss fw.sxent (fw.as_logits logit) fw.labels logit_length
          match apply_learning_rate_decay hp with
          | Except.error e => Except.error e
          | Except.ok decayed_learning_rate =>
            match initOptimizer hp decayed_learning_rate with
            | Except.error e => Except.error e
            | Except.ok optimizer =>
              Except.ok { m1 with
                train_loss := some loss,
                decayed_learning_rate := some decayed_learning_rate,
                optimizer := some optimizer,
                update_model := some (fun step =>
                  (minimize_loss (fw.opt_apply optimizer) (fw.grads_of loss)
                    hp.train_clip_norm step).1),
                train_summary := some ["learning_rate", "train_loss", "gradient_norm"] }
        else Except.ok m1

/-- os.path.join for two components, as used for the checkpoint name. -/
def os_path_join (dir name : String) : String :=
  if name.startsWith "/" then name
  else if dir = "" then name
  else if dir.endsWith "/" then dir ++ name
  else dir ++ "/" ++ name

/-- LanguageModel.save: ckpt_saver.save(sess, self.ckpt_name,
global_step=global_step) where ckpt_name = os.path.join(ckpt_dir,
"model_ckpt"): the written checkpoint's path stem and its global-step tag. -/
def save (ckpt_dir : String) (global_step : ℕ) : String × ℕ :=
  (os_path_join ckpt_dir "model_ckpt", global_step)

/-- LanguageModel.restore: load from tf.train.latest_checkpoint(ckpt_dir)
when it exists, and raise FileNotFoundError when it is None. -/
def restore (latest_ckpt : Option String) : Except String String :=
  match latest_ckpt with
  | some ckpt_file => Except.ok ckpt_file
  | none => Except.error "FileNotFoundError: latest checkpoint file does not exist"

/-- A TensorFlow session as the entry points see it: sess.run takes the
fetch list and the optional embedding fed through feed_dict (the only
placeholder the entry points ever feed), and returns the fetched values. -/
structure Session (e r : Type) where
  run : List String → Option e → r

/-- LanguageModel.train: run the update op and fetch the training metrics,
feeding the embedding placeholder only when model_pretrained_embedding. -/
def LanguageModel.train {e r : Type} (hp : Hyperparams) (sess : Session e r)
    (embedding : e) : r :=
  if hp.model_pretrained_embedding = true then
    sess.run ["update_model", "train_loss", "learning_rate", "global_step",
      "batch_size", "train_summary"] (some embedding)
  else
    sess.run ["update_model", "train_loss", "learning_rate", "global_step",
      "batch_size", "train_summary"] none

/-- LanguageModel.evaluate: fetch the evaluation metrics, feeding the
embedding placeholder only when model_pretrained_embedding. -/
def LanguageModel.evaluate {e r : Type} (hp : Hyperparams) (sess : Session e r)
    (embedding : e) : r :=
  if hp.model_pretrained_embedding = true then
    sess.run ["eval_loss", "word_count", "batch_size"] (some embedding)
  else
    sess.run ["eval_loss", "word_count", "batch_size"] none

/-- LanguageModel.infer: fetch the inference outputs, feeding the embedding
placeholder only when model_pretrained_embedding. -/
def LanguageModel.infer {e r : Type} (hp : Hyperparams) (sess : Session e r)
    (embedding : e) : r :=
  if hp.model_pretrained_embedding = true then
    sess.run ["infer_logit", "infer_sample_id", "infer_sample_word",
      "batch_size", "infer_summary"] (some embedding)
  else
    sess.run ["infer_logit", "infer_sample_id", "infer_sample_word",
      "batch_size", "infer_summary"] none

/-- LanguageModel.encode: fetch the encoder outputs, feeding the embedding
placeholder only when model_pretrained_embedding. -/
def LanguageModel.encode {e r : Type} (hp : Hyperparams) (sess : Session e r)
    (embedding : e) : r :=
  if hp.model_pretrained_embedding = true then
    sess.run ["encoder_output", "encoder_output_length", "batch_size"] (some embedding)
  else
    sess.run ["encoder_output", "encoder_output_length", "batch_size"] none

/-- A concrete hyperparameter assignment (valid encoding type, prediction
type, decay mode and optimizer type) used to instantiate the theorems on
closed inputs. -/
def hpW : Hyperparams where
  model_encoder_num_layer := 1
  model_encoder_encoding_include_input := false
  model_encoder_encoding_type := "top"
  model_decoder_prediction_type := "max"
  model_pretrained_embedding := false
  train_optimizer_learning_rate := 1
  train_optimizer_decay_mode := "exponential_decay"
  train_optimizer_decay_rate := 1
  train_optimizer_decay_step := 1
  train_optimizer_decay_start_step := 1
  train_optimizer_type := "sgd"
  train_optimizer_momentum_beta := 0
  train_optimizer_rmsprop_beta := 0
  train_optimizer_rmsprop_epsilon := 0
  train_optimizer_adadelta_rho := 0
  train_optimizer_adadelta_epsilon := 0
  train_optimizer_adagrad_init_accumulator := 0
  train_optimizer_adam_beta_1 := 0
  train_optimizer_adam_beta_2 := 0
  train_optimizer_adam_epsilon := 0
  train_clip_norm := 1
  train_ckpt_output_dir := "output"

/-- A concrete framework substrate over trivial index types, used to
instantiate the theorems on closed inputs. -/
def fwW : Framework 1 1 Unit Unit Unit where
  rnn_cell := fun t _ _ _ => (t, t)
  dense_proj := fun t => t
  sxent := fun _ _ => 0
  as_logits := fun _ _ _ _ => 0
  labels := fun _ _ => 0
  argmax_of := fun _ => ()
  multinomial_of := fun _ => ()
  lookup := fun _ => "word"
  grads_of := fun _ => []
  opt_apply := fun _ _ v => v

/-- A concrete input embedding over the trivial index shape. -/
def embW : Tensor Unit := fun _ => 0

/-- A concrete batch of sequence lengths. -/
def lW : Fin 1 → ℕ := fun _ => 1

/-- A concrete session whose fetches ignore the feeds' identity only insofar
as the run function dictates. -/
def sessW : Session ℕ ℕ where
  run := fun fetches fed => fetches.length + (match fed with | some x => x | none => 0)

/-- Extract the payload of a successful computation, with a fallback. -/
def okOr {A : Type} (x : Except String A) (d : A) : A :=
  match x with
  | Except.ok a => a
  | Except.error _ => d

/-- The model built by the constructor in mode "encode" on the concrete
instantiation. -/
noncomputable def mEncodeW : BuiltModel 1 Unit Unit :=
  okOr (init hpW fwW embW lW lW "encode") {}

/-- The model built by the constructor in mode "infer" on the concrete
instantiation. -/
noncomputable def mInferW : BuiltModel 1 Unit Unit :=
  okOr (init hpW fwW embW lW lW "infer") {}

/-- The model built by the constructor in mode "train" on the concrete
instantiation. -/
noncomputable def mTrainW : BuiltModel 1 Unit Unit :=
  okOr (init hpW fwW embW lW lW "train") {}

/-- The model built by the constructor in the unrecognized mode "generate"
on the concrete instantiation. -/
noncomputable def mOtherW : BuiltModel 1 Unit Unit :=
  okOr (init hpW fwW embW lW lW "generate") {}

/-- Concrete logits used to instantiate the loss theorem: identically 0. -/
def logitW : Fin 1 → Fin 2 → Unit → ℚ := fun _ _ _ => 0

/-- Concrete logits agreeing with logitW at every position before the
sequence length (t = 0) but differing at the masked-out position t = 1. -/
def logitW2 : Fin 1 → Fin 2 → Unit → ℚ := fun _ t _ => if (t : ℕ) = 0 then 0 else 5

/-- Concrete labels for the loss theorem. -/
def labelW : Fin 1 → Fin 2 → ℕ := fun _ _ => 0

/-- Concrete sequence lengths (length 1, so position 1 is masked out). -/
def lenW : Fin 1 → ℕ := fun _ => 1

/-- Concrete cross-entropy substrate for the loss theorem: the value of the
logit row at the target-independent index. -/
def sxentW : (Unit → ℚ) → ℕ → ℚ := fun row _ => row ()

/-- Claim C3: for every non-empty list of encoder layer outputs,
_convert_encoder_output returns the last element when the configured
encoding type is "top", the first element when it is "bottom", the
elementwise mean over all elements when it is "average", and raises
ValueError for every other encoding type. -/
theorem claim_c3 {i : Type} (outs : List (Tensor i)) (h : outs ≠ [])
    (t : String) (h1 : t ≠ "top") (h2 : t ≠ "bottom") (h3 : t ≠ "average") :
    convert_encoder_output "top" outs = Except.ok (outs.getLast h)
    ∧ convert_encoder_output "bottom" outs = Except.ok (outs.head h)
    ∧ convert_encoder_output "average" outs
        = Except.ok (fun x => (outs.map (fun o => o x)).sum / (outs.length : ℚ))
    ∧ convert_encoder_output t outs
        = Except.error ("ValueError: unsupported encoding type " ++ t) := by
  refine ⟨?_, ?_, rfl, ?_⟩
  · show (match outs.getLast? with
      | some x => Except.ok x
      | none => Except.error "IndexError: list index out of range") = _
    rw [List.getLast?_eq_getLast outs h]
  · show (match outs.head? with
      | some x => Except.ok x
      | none => Except.error "IndexError: list index out of range") = _
    rw [List.head?_eq_head h]
  · unfold convert_encoder_output
    rw [if_neg h1, if_neg h2, if_neg h3]

/-- Claim C3 witness: the theorem instantiated on a concrete one-element
output list and the unsupported encoding type "mean". -/
theorem claim_c3_witness :
    convert_encoder_output "top" [embW] = Except.ok ([embW].getLast (by simp))
    ∧ convert_encoder_output "bottom" [embW] = Except.ok ([embW].head (by simp))
    ∧ convert_encoder_output "average" [embW]
        = Except.ok (fun x => ([embW].map (fun o => o x)).sum / (([embW].length : ℕ) : ℚ))
    ∧ convert_encoder_output "mean" [embW]
        = Except.error ("ValueError: unsupported encoding type " ++ "mean") :=
  claim_c3 [embW] (by simp) "mean" (by decide) (by decide) (by decide)

/-- Claim C8: restore loads the latest checkpoint file when one exists, and
raises FileNotFoundError if and only if no checkpoint exists; save writes
the checkpoint named model_ckpt in the checkpoint directory, tagged with
the given global step. -/
theorem claim_c8 (dir f : String) (g : ℕ) :
    restore (some f) = Except.ok f
    ∧ (∀ l : Option String, (∃ e, restore l = Except.error e) ↔ l = none)
    ∧ restore none
        = Except.error "FileNotFoundError: latest checkpoint file does not exist"
    ∧ save dir g = (os_path_join dir "model_ckpt", g) := by
  refine ⟨rfl, ?_, rfl, rfl⟩
  intro l
  cases l <;> simp [restore]

/-- Claim C10: when model_pretrained_embedding is false, none of the four
entry points feeds the embedding argument to the session, so two calls that
differ only in the embedding argument return equal results. -/
theorem claim_c10 {e r : Type} (hp : Hyperparams)
    (h : hp.model_pretrained_embedding = false)
    (sess : Session e r) (e1 e2 : e) :
    LanguageModel.train hp sess e1 = LanguageModel.train hp sess e2
    ∧ LanguageModel.evaluate hp sess e1 = LanguageModel.evaluate hp sess e2
    ∧ LanguageModel.infer hp sess e1 = LanguageModel.infer hp sess e2
    ∧ LanguageModel.encode hp sess e1 = LanguageModel.encode hp sess e2 := by
  simp [LanguageModel.train, LanguageModel.evaluate, LanguageModel.infer,
    LanguageModel.encode, h]

/-- Claim C10 witness: the theorem instantiated on the concrete session and
two different embedding arguments 3 and 7. -/
theorem claim_c10_witness :
    LanguageModel.train hpW sessW 3 = LanguageModel.train hpW sessW 7
    ∧ LanguageModel.evaluate hpW sessW 3 = LanguageModel.evaluate hpW sessW 7
    ∧ LanguageModel.infer hpW sessW 3 = LanguageModel.infer hpW sessW 7
    ∧ LanguageModel.encode hpW sessW 3 = LanguageModel.encode hpW sessW 7 :=
  claim_c10 hpW rfl sessW 3 7

/-- Claim C6: _initialize_optimizer returns an optimizer of the kind named
by the configured optimizer type for exactly the six types sgd, momentum,
rmsprop, adadelta, adagrad and adam, each constructed with its own
hyperparameters and the given learning rate, and raises ValueError for
every other optimizer type. -/
theorem claim_c6 (hp : Hyperparams) (lr : ℕ → ℝ) (t : String)
    (h1 : t ≠ "sgd") (h2 : t ≠ "momentum") (h3 : t ≠ "rmsprop")
    (h4 : t ≠ "adadelta") (h5 : t ≠ "adagrad") (h6 : t ≠ "adam") :
    initOptimizer { hp with train_optimizer_type := "sgd" } lr
      = Except.ok (Optimizer.sgd lr)
    ∧ initOptimizer { hp with train_optimizer_type := "momentum" } lr
      = Except.ok (Optimizer.momentum lr hp.train_optimizer_momentum_beta)
    ∧ initOptimizer { hp with train_optimizer_type := "rmsprop" } lr
      = Except.ok (Optimizer.rmsprop lr hp.train_optimizer_rmsprop_beta
          hp.train_optimizer_rmsprop_epsilon)
    ∧ initOptimizer { hp with train_optimizer_type := "adadelta" } lr
      = Except.ok (Optimizer.adadelta lr hp.train_optimizer_adadelta_rho
          hp.train_optimizer_adadelta_epsilon)
    ∧ initOptimizer { hp with train_optimizer_type := "adagrad" } lr
      = Except.ok (Optimizer.adagrad lr
          hp.train_optimizer_adagrad_init_accumulator)
    ∧ initOptimizer { hp with train_optimizer_type := "adam" } lr
      = Except.ok (Optimizer.adam lr hp.train_optimizer_adam_beta_1
          hp.train_optimizer_adam_beta_2 hp.train_optimizer_adam_epsilon)
    ∧ initOptimizer { hp with train_optimizer_type := t } lr
      = Except.error ("ValueError: unsupported optimizer type " ++ t) := by
  refine ⟨rfl, rfl, rfl, rfl, rfl, rfl, ?_⟩
  unfold initOptimizer
  rw [if_neg, if_neg, if_neg, if_neg, if_neg, if_neg] <;> simpa

/-- Claim C6 witness: the theorem instantiated on the concrete
hyperparameters and the unsupported optimizer type "adamax". -/
theorem claim_c6_witness :
    initOptimizer { hpW with train_optimizer_type := "sgd" } (fun _ => 1)
      = Except.ok (Optimizer.sgd (fun _ => 1))
    ∧ initOptimizer { hpW with train_optimizer_type := "momentum" } (fun _ => 1)
      = Except.ok (Optimizer.momentum (fun _ => 1) hpW.train_optimizer_momentum_beta)
    ∧ initOptimizer { hpW with train_optimizer_type := "rmsprop" } (fun _ => 1)
      = Except.ok (Optimizer.rmsprop (fun _ => 1) hpW.train_optimizer_rmsprop_beta
          hpW.train_optimizer_rmsprop_epsilon)
    ∧ initOptimizer { hpW with train_optimizer_type := "adadelta" } (fun _ => 1)
      = Except.ok (Optimizer.adadelta (fun _ => 1) hpW.train_optimizer_adadelta_rho
          hpW.train_optimizer_adadelta_epsilon)
    ∧ initOptimizer { hpW with train_optimizer_type := "adagrad" } (fun _ => 1)
      = Except.ok (Optimizer.adagrad (fun _ => 1)
          hpW.train_optimizer_adagrad_init_accumulator)
    ∧ initOptimizer { hpW with train_optimizer_type := "adam" } (fun _ => 1)
      = Except.ok (Optimizer.adam (fun _ => 1) hpW.train_optimizer_adam_beta_1
          hpW.train_optimizer_adam_beta_2 hpW.train_optimizer_adam_epsilon)
    ∧ initOptimizer { hpW with train_optimizer_type := "adamax" } (fun _ => 1)
      = Except.error ("ValueError: unsupported optimizer type " ++ "adamax") :=
  claim_c6 hpW (fun _ => 1) "adamax" (by decide) (by decide) (by decide)
    (by decide) (by decide) (by decide)

/-- Claim C5: for every global_step strictly below decay_start_step the
effective learning rate is the undecayed base learning rate; for every
global_step at or above decay_start_step it is the configured schedule
(exponential decay or inverse-time decay) evaluated at
global_step - decay_start_step; any other decay mode raises ValueError at
construction, regardless of global_step. -/
theorem claim_c5 (hp : Hyperparams) (g g' : ℕ)
    (hg : hp.train_optimizer_decay_start_step ≤ g)
    (hg' : g' < hp.train_optimizer_decay_start_step)
    (m : String) (hm1 : m ≠ "exponential_decay") (hm2 : m ≠ "inverse_time_decay") :
    (∃ f, apply_learning_rate_decay
          { hp with train_optimizer_decay_mode := "exponential_decay" } = Except.ok f
        ∧ f g' = hp.train_optimizer_learning_rate
        ∧ f g = exponential_decay hp.train_optimizer_learning_rate
            hp.train_optimizer_decay_rate hp.train_optimizer_decay_step
            ((g : ℤ) - (hp.train_optimizer_decay_start_step : ℤ)))
    ∧ (∃ f, apply_learning_rate_decay
          { hp with train_optimizer_decay_mode := "inverse_time_decay" } = Except.ok f
        ∧ f g' = hp.train_optimizer_learning_rate
        ∧ f g = inverse_time_decay hp.train_optimizer_learning_rate
            hp.train_optimizer_decay_rate hp.train_optimizer_decay_step
            ((g : ℤ) - (hp.train_optimizer_decay_start_step : ℤ)))
    ∧ apply_learning_rate_decay { hp with train_optimizer_decay_mode := m }
        = Except.error ("ValueError: unsupported decay mode " ++ m) := by
  refine ⟨⟨_, rfl, ?_, ?_⟩, ⟨_, rfl, ?_, ?_⟩, ?_⟩
  · exact if_pos hg'
  · exact if_neg (Nat.not_lt.mpr hg)
  · exact if_pos hg'
  · exact if_neg (Nat.not_lt.mpr hg)
  · unfold apply_learning_rate_decay
    rw [if_neg, if_neg] <;> simpa

/-- Claim C5 witness: the theorem instantiated on the concrete
hyperparameters (decay_start_step = 1), steps 1 and 0, and the unsupported
decay mode "linear". -/
theorem claim_c5_witness :
    (∃ f, apply_learning_rate_decay
          { hpW with train_optimizer_decay_mode := "exponential_decay" } = Except.ok f
        ∧ f 0 = hpW.train_optimizer_learning_rate
        ∧ f 1 = exponential_decay hpW.train_optimizer_learning_rate
            hpW.train_optimizer_decay_rate hpW.train_optimizer_decay_step
            ((1 : ℤ) - (hpW.train_optimizer_decay_start_step : ℤ)))
    ∧ (∃ f, apply_learning_rate_decay
          { hpW with train_optimizer_decay_mode := "inverse_time_decay" } = Except.ok f
        ∧ f 0 = hpW.train_optimizer_learning_rate
        ∧ f 1 = inverse_time_decay hpW.train_optimizer_learning_rate
            hpW.train_optimizer_decay_rate hpW.train_optimizer_decay_step
            ((1 : ℤ) - (hpW.train_optimizer_decay_start_step : ℤ)))
    ∧ apply_learning_rate_decay { hpW with train_optimizer_decay_mode := "linear" }
        = Except.error ("ValueError: unsupported decay mode " ++ "linear") :=
  claim_c5 hpW 1 0 (by decide) (by decide) "linear" (by decide) (by decide)

/-- Claim C2: the optimization loss is the sum over timesteps of the
batch-averaged cross-entropy, in which position t of sequence b carries
weight 1 when t < logit_length b and weight 0 otherwise; consequently the
logits and labels at positions at or past the sequence length contribute
nothing to the loss. -/
theorem claim_c2 {B T : ℕ} {V : Type} (sxent : (V → ℚ) → ℕ → ℚ)
    (logit logit' : Fin B → Fin T → V → ℚ) (label label' : Fin B → Fin T → ℕ)
    (logit_length : Fin B → ℕ)
    (hl : ∀ (b : Fin B) (t : Fin T), (t : ℕ) < logit_length b → logit b t = logit' b t)
    (hb : ∀ (b : Fin B) (t : Fin T), (t : ℕ) < logit_length b → label b t = label' b t) :
    compute_loss sxent logit label logit_length
      = ∑ t : Fin T, (∑ b : Fin B, sxent (logit b t) (label b t)
            * (if (t : ℕ) < logit_length b then 1 else 0))
          / (∑ b : Fin B, if (t : ℕ) < logit_length b then (1 : ℚ) else 0)
    ∧ compute_loss sxent logit label logit_length
      = compute_loss sxent logit' label' logit_length := by
  constructor
  · rfl
  · unfold compute_loss sequence_loss sequence_mask
    refine Finset.sum_congr rfl (fun t _ => ?_)
    congr 1
    refine Finset.sum_congr rfl (fun b _ => ?_)
    by_cases h : (t : ℕ) < logit_length b
    · rw [hl b t h, hb b t h]
    · simp [h]

/-- Claim C2 witness: the theorem instantiated on concrete 1-by-2 tensors
whose logits differ exactly at the masked-out position t = 1 (lengths are
1), showing the masked position contributes nothing to the loss. -/
theorem claim_c2_witness :
    compute_loss sxentW logitW labelW lenW
      = ∑ t : Fin 2, (∑ b : Fin 1, sxentW (logitW b t) (labelW b t)
            * (if (t : ℕ) < lenW b then 1 else 0))
          / (∑ b : Fin 1, if (t : ℕ) < lenW b then (1 : ℚ) else 0)
    ∧ compute_loss sxentW logitW labelW lenW
      = compute_loss sxentW logitW2 labelW lenW :=
  claim_c2 sxentW logitW logitW2 labelW labelW lenW
    (by
      intro b t ht
      funext v
      have hlen : lenW b = 1 := rfl
      rw [hlen] at ht
      have h0 : (t : ℕ) = 0 := by omega
      simp [logitW, logitW2, h0])
    (fun _ _ _ => rfl)

/-- The sum of squared entries of a list is nonnegative. -/
theorem sum_sq_nonneg (l : List ℝ) : 0 ≤ (l.map (fun g => g ^ 2)).sum := by
  refine List.sum_nonneg ?_
  intro x hx
  rcases List.mem_map.mp hx with ⟨g, _, rfl⟩
  positivity

/-- Scaling every entry of a list multiplies the summed squares by the
square of the scale. -/
theorem sq_sum_map_mul (l : List ℝ) (s : ℝ) :
    ((l.map (fun g => g * s)).map (fun g => g ^ 2)).sum
      = ((l.map (fun g => g ^ 2)).sum) * s ^ 2 := by
  induction l with
  | nil => simp
  | cons a l ih =>
    simp only [List.map_cons, List.sum_cons, ih]
    ring

/-- Scaling every entry of a list scales its global norm by the absolute
value of the scale. -/
theorem global_norm_scale (l : List ℝ) (s : ℝ) :
    global_norm (l.map (fun g => g * s)) = global_norm l * |s| := by
  unfold global_norm
  rw [sq_sum_map_mul, Real.sqrt_mul (sum_sq_nonneg l), Real.sqrt_sq_eq_abs]

/-- The clipped gradient list returned by tf.clip_by_global_norm has global
norm at most the (nonnegative) clip bound. -/
theorem clipped_global_norm_le (l : List ℝ) (c : ℝ) (h : 0 ≤ c) :
    global_norm (clip_by_global_norm l c).1 ≤ c := by
  unfold clip_by_global_norm
  by_cases hle : global_norm l ≤ c
  · simp [hle]
  · have hgt : c < global_norm l := lt_of_not_ge hle
    have hpos : 0 < global_norm l := lt_of_le_of_lt h hgt
    simp only [hle, if_false]
    rw [global_norm_scale, abs_of_nonneg (div_nonneg h hpos.le), mul_comm,
      div_mul_cancel₀ _ hpos.ne']

/-- Claim C4: in _minimize_loss the gradients of the loss are the
clip_by_global_norm rescaling with the train_clip_norm bound, so the
applied gradients' global norm never exceeds train_clip_norm, the updated
variables are produced by applying the optimizer to exactly those clipped
gradients, and the update operation increments global_step by one. -/
theorem claim_c4 (opt_apply : ℝ → ℝ → ℝ) (grads_and_vars : List (ℝ × ℝ))
    (clip_norm : ℝ) (step : ℕ) (h : 0 ≤ clip_norm) :
    global_norm (minimize_loss opt_apply grads_and_vars clip_norm step).2.1
      ≤ clip_norm
    ∧ (minimize_loss opt_apply grads_and_vars clip_norm step).2.1
      = (clip_by_global_norm (grads_and_vars.map Prod.fst) clip_norm).1
    ∧ (minimize_loss opt_apply grads_and_vars clip_norm step).1.1
      = (((clip_by_global_norm (grads_and_vars.map Prod.fst) clip_norm).1).zip
          (grads_and_vars.map Prod.snd)).map (fun gv => opt_apply gv.1 gv.2)
    ∧ (minimize_loss opt_apply grads_and_vars clip_norm step).1.2 = step + 1 :=
  ⟨clipped_global_norm_le _ _ h, rfl, rfl, rfl⟩

/-- Claim C4 witness: the theorem instantiated on two concrete
gradient-variable pairs, clip bound 5, and global step 7. -/
theorem claim_c4_witness :
    global_norm (minimize_loss (fun g v => v - g) [(3, 4), (1, 2)] 5 7).2.1 ≤ 5
    ∧ (minimize_loss (fun g v => v - g) [(3, 4), (1, 2)] 5 7).2.1
      = (clip_by_global_norm ([((3 : ℝ), (4 : ℝ)), (1, 2)].map Prod.fst) 5).1
    ∧ (minimize_loss (fun g v => v - g) [(3, 4), (1, 2)] 5 7).1.1
      = (((clip_by_global_norm ([((3 : ℝ), (4 : ℝ)), (1, 2)].map Prod.fst) 5).1).zip
          ([((3 : ℝ), (4 : ℝ)), (1, 2)].map Prod.snd)).map
            (fun gv => gv.2 - gv.1)
    ∧ (minimize_loss (fun g v => v - g) [(3, 4), (1, 2)] 5 7).1.2 = 7 + 1 :=
  claim_c4 (fun g v => v - g) [(3, 4), (1, 2)] 5 7 (by norm_num)

/-- The encoder layer loop creates exactly as many outputs as layers were
requested. -/
theorem loop_outputs_length {i : Type} {B : ℕ}
    (rnn : Tensor i → (Fin B → ℕ) → ℕ → String → Tensor i × Tensor i)
    (len : Fin B → ℕ) (input : Tensor i) (k cnt : ℕ) :
    (encoder_layer_loop rnn len input k cnt).outputs.length = cnt := by
  induction cnt generalizing input k with
  | zero => rfl
  | succ c ih => simp [encoder_layer_loop, ih]

/-- The encoder layer loop's layer trace: layer ids count up from the start
id and every layer is created in the forward direction. -/
theorem loop_layers {i : Type} {B : ℕ}
    (rnn : Tensor i → (Fin B → ℕ) → ℕ → String → Tensor i × Tensor i)
    (len : Fin B → ℕ) (input : Tensor i) (k cnt : ℕ) :
    (encoder_layer_loop rnn len input k cnt).layers
      = (List.range cnt).map
          (fun j => { layer_id := k + j, direction := "forward" }) := by
  induction cnt generalizing input k with
  | zero => rfl
  | succ c ih =>
    rw [encoder_layer_loop, List.range_succ_eq_map]
    simp only [List.map_cons, List.map_map, ih]
    refine congrArg₂ _ (by simp) ?_
    refine List.map_congr_left (fun j _ => ?_)
    simp only [Function.comp_apply]
    congr 1
    omega

/-- Peeling one layer off the front of a stack of forward RNN layers. -/
theorem stacked_output_shift {i : Type} {B : ℕ}
    (rnn : Tensor i → (Fin B → ℕ) → ℕ → String → Tensor i × Tensor i)
    (len : Fin B → ℕ) (input : Tensor i) (k n : ℕ) :
    stacked_output rnn len input k (n + 1)
      = stacked_output rnn len (build_rnn_layer rnn input len k "forward").1
          (k + 1) n := by
  induction n with
  | zero => rfl
  | succ m ih =>
    show (build_rnn_layer rnn (stacked_output rnn len input k (m + 1)) len
        (k + (m + 1)) "forward").1 = _
    rw [ih, show k + (m + 1) = (k + 1) + m from by omega]
    rfl

/-- The outputs of the encoder layer loop are exactly the partial stacks:
the j-th output is the result of j+1 forward layers applied to the loop's
input, so each layer consumes the previous layer's output. -/
theorem loop_outputs_chain {i : Type} {B : ℕ}
    (rnn : Tensor i → (Fin B → ℕ) → ℕ → String → Tensor i × Tensor i)
    (len : Fin B → ℕ) (input : Tensor i) (k cnt : ℕ) :
    (encoder_layer_loop rnn len input k cnt).outputs
      = (List.range cnt).map (fun j => stacked_output rnn len input k (j + 1)) := by
  induction cnt generalizing input k with
  | zero => rfl
  | succ c ih =>
    rw [encoder_layer_loop, List.range_succ_eq_map]
    simp only [List.map_cons, List.map_map, ih]
    refine congrArg₂ _ rfl ?_
    refine List.map_congr_left (fun j _ => ?_)
    show stacked_output rnn len (build_rnn_layer rnn input len k "forward").1
        (k + 1) (j + 1) = stacked_output rnn len input k (j + 1 + 1)
    rw [stacked_output_shift rnn len input k (j + 1)]

/-- Every layer _build_encoder ever creates is a forward-direction layer. -/
theorem encoder_layers_forward {i : Type} {B : ℕ} (hp : Hyperparams)
    (rnn : Tensor i → (Fin B → ℕ) → ℕ → String → Tensor i × Tensor i)
    (input : Tensor i) (len : Fin B → ℕ) :
    ∀ spec ∈ (build_encoder hp rnn input len).layers, spec.direction = "forward" := by
  intro spec hmem
  have hl : (build_encoder hp rnn input len).layers
      = (encoder_layer_loop rnn len input 0 hp.model_encoder_num_layer).layers := rfl
  rw [hl, loop_layers] at hmem
  rcases List.mem_map.mp hmem with ⟨j, _, rfl⟩
  rfl

/-- Claim C9: when model_encoder_encoding_include_input is true the raw
(pre-RNN) input embedding is prepended as the first encoder layer output,
so encoding type "bottom" returns the un-encoded input embedding itself and
encoding type "average" includes the raw input embedding in the mean over
the num_layer + 1 stacked outputs. -/
theorem claim_c9 {i : Type} {B : ℕ} (hp : Hyperparams)
    (rnn : Tensor i → (Fin B → ℕ) → ℕ → String → Tensor i × Tensor i)
    (input : Tensor i) (len : Fin B → ℕ)
    (h : hp.model_encoder_encoding_include_input = true) :
    (build_encoder hp rnn input len).outputs
      = input :: (encoder_layer_loop rnn len input 0 hp.model_encoder_num_layer).outputs
    ∧ convert_encoder_output "bottom" (build_encoder hp rnn input len).outputs
      = Except.ok input
    ∧ convert_encoder_output "average" (build_encoder hp rnn input len).outputs
      = Except.ok (fun x =>
          (input x
            + ((encoder_layer_loop rnn len input 0
                hp.model_encoder_num_layer).outputs.map (fun o => o x)).sum)
          / ((hp.model_encoder_num_layer : ℚ) + 1)) := by
  have houts : (build_encoder hp rnn input len).outputs
      = input :: (encoder_layer_loop rnn len input 0 hp.model_encoder_num_layer).outputs := by
    simp [build_encoder, h]
  refine ⟨houts, ?_, ?_⟩
  · rw [houts]
    rfl
  · rw [houts]
    show Except.ok (reduce_mean _) = _
    refine congrArg _ ?_
    funext x
    simp only [reduce_mean, List.map_cons, List.sum_cons, List.length_cons,
      loop_outputs_length]
    push_cast
    ring_nf

/-- Claim C9 witness: the theorem instantiated on the concrete
hyperparameters with include_input switched on. -/
theorem claim_c9_witness :
    (build_encoder { hpW with model_encoder_encoding_include_input := true }
        fwW.rnn_cell embW lW).outputs
      = embW :: (encoder_layer_loop fwW.rnn_cell lW embW 0
          ({ hpW with model_encoder_encoding_include_input := true } : Hyperparams).model_encoder_num_layer).outputs
    ∧ convert_encoder_output "bottom"
        (build_encoder { hpW with model_encoder_encoding_include_input := true }
          fwW.rnn_cell embW lW).outputs
      = Except.ok embW
    ∧ convert_encoder_output "average"
        (build_encoder { hpW with model_encoder_encoding_include_input := true }
          fwW.rnn_cell embW lW).outputs
      = Except.ok (fun x =>
          (embW x
            + ((encoder_layer_loop fwW.rnn_cell lW embW 0
                ({ hpW with model_encoder_encoding_include_input := true } : Hyperparams).model_encoder_num_layer).outputs.map
                  (fun o => o x)).sum)
          / ((({ hpW with model_encoder_encoding_include_input := true } : Hyperparams).model_encoder_num_layer : ℚ) + 1)) :=
  claim_c9 { hpW with model_encoder_encoding_include_input := true }
    fwW.rnn_cell embW lW rfl

/-- Claim C7 (amended): the encoder stacks model_encoder_num_layer RNN
layers, each consuming the previous layer's output; every layer is built in
the forward direction, and no configuration builds a backward-direction
layer. -/
theorem claim_c7 {i : Type} {B : ℕ} (hp : Hyperparams)
    (rnn : Tensor i → (Fin B → ℕ) → ℕ → String → Tensor i × Tensor i)
    (input : Tensor i) (len : Fin B → ℕ) :
    (build_encoder hp rnn input len).layers
      = (List.range hp.model_encoder_num_layer).map
          (fun j => { layer_id := j, direction := "forward" })
    ∧ (build_encoder hp rnn input len).outputs.drop
        (if hp.model_encoder_encoding_include_input = true then 1 else 0)
      = (List.range hp.model_encoder_num_layer).map
          (fun j => stacked_output rnn len input 0 (j + 1))
    ∧ ∀ spec ∈ (build_encoder hp rnn input len).layers,
        spec.direction = "forward" := by
  refine ⟨?_, ?_, encoder_layers_forward hp rnn input len⟩
  · have hl : (build_encoder hp rnn input len).layers
        = (encoder_layer_loop rnn len input 0 hp.model_encoder_num_layer).layers := rfl
    rw [hl, loop_layers]
    simp
  · have ho : (build_encoder hp rnn input len).outputs
        = (if hp.model_encoder_encoding_include_input = true then [input] else [])
            ++ (encoder_layer_loop rnn len input 0 hp.model_encoder_num_layer).outputs := rfl
    rw [ho]
    by_cases hinc : hp.model_encoder_encoding_include_input = true
    · simp only [hinc, if_true, List.singleton_append, List.drop_succ_cons,
        List.drop_zero]
      exact loop_outputs_chain rnn len input 0 hp.model_encoder_num_layer
    · simp only [hinc, if_false, List.nil_append, List.drop_zero]
      exact loop_outputs_chain rnn len input 0 hp.model_encoder_num_layer

/-- Claim C7 counterexample: the claim's bidirectional part fails — there is
no configuration (no hyperparameters, RNN substrate, input or lengths)
under which _build_encoder creates a layer with direction "backward"; the
layer builder's direction argument is only ever invoked with "forward". -/
theorem claim_c7_counterexample :
    ¬ ∃ (hp : Hyperparams)
        (rnn : Tensor Unit → (Fin 1 → ℕ) → ℕ → String → Tensor Unit × Tensor Unit)
        (input : Tensor Unit) (len : Fin 1 → ℕ) (spec : RnnLayerSpec),
      spec ∈ (build_encoder hp rnn input len).layers
        ∧ spec.direction = "backward" := by
  rintro ⟨hp, rnn, input, len, spec, hmem, hdir⟩
  have hfwd := encoder_layers_forward hp rnn input len spec hmem
  rw [hfwd] at hdir
  exact absurd hdir (by decide)

/-- Claim C7 witness: the amended theorem's per-layer direction statement
instantiated on the concrete one-layer encoder, whose only created layer is
layer 0 in the forward direction. -/
theorem claim_c7_witness :
    ({ layer_id := 0, direction := "forward" } : RnnLayerSpec)
        ∈ (build_encoder hpW fwW.rnn_cell embW lW).layers
    ∧ ({ layer_id := 0, direction := "forward" } : RnnLayerSpec).direction
        = "forward" :=
  ⟨by decide,
   (claim_c7 hpW fwW.rnn_cell embW lW).2.2
     { layer_id := 0, direction := "forward" } (by decide)⟩

/-- Claim C1: the constructor switches on mode — "encode" builds only the
encoding graph (no decoder projection, no prediction, no training
artifacts) and exposes encoder_output and encoder_output_length; "infer"
additionally (on top of the full graph with decoder) generates
sample_id / sample_word predictions and the infer summary; "train" and
"eval" additionally build the loss, the decayed learning rate, the
optimizer, the update operation and the train summary; and no mode other
than "train" and "eval" builds those training artifacts. -/
theorem claim_c1 {B T : ℕ} {i s V : Type} (hp : Hyperparams)
    (fw : Framework B T i s V) (emb : Tensor i) (til ll : Fin B → ℕ) :
    (∀ m, init hp fw emb til ll "encode" = Except.ok m →
        m.encoder_output.isSome = true ∧ m.encoder_output_length = some til
        ∧ m.decoder_built = false ∧ m.logit = none
        ∧ m.infer_sample_id = none ∧ m.infer_sample_word = none
        ∧ m.infer_summary_built = false
        ∧ m.train_loss = none ∧ m.decayed_learning_rate = none
        ∧ m.optimizer = none ∧ m.update_model = none ∧ m.train_summary = none)
    ∧ (∀ m, init hp fw emb til ll "infer" = Except.ok m →
        m.decoder_built = true ∧ m.logit.isSome = true
        ∧ m.infer_sample_id.isSome = true ∧ m.infer_sample_word.isSome = true
        ∧ m.infer_summary_built = true
        ∧ m.train_loss = none ∧ m.decayed_learning_rate = none
        ∧ m.optimizer = none ∧ m.update_model = none ∧ m.train_summary = none)
    ∧ (∀ mode m, (mode = "train" ∨ mode = "eval") →
        init hp fw emb til ll mode = Except.ok m →
        m.decoder_built = true ∧ m.logit.isSome = true
        ∧ m.train_loss.isSome = true ∧ m.decayed_learning_rate.isSome = true
        ∧ m.optimizer.isSome = true ∧ m.update_model.isSome = true
        ∧ m.train_summary.isSome = true)
    ∧ (∀ mode m, mode ≠ "train" → mode ≠ "eval" →
        init hp fw emb til ll mode = Except.ok m →
        m.train_loss = none ∧ m.decayed_learning_rate = none
        ∧ m.optimizer = none ∧ m.update_model = none
        ∧ m.train_summary = none) := by
  refine ⟨?_, ?_, ?_, ?_⟩
  · intro m hm
    unfold init at hm
    rw [if_pos rfl] at hm
    cases henc : build_encoding_graph hp fw emb til with
    | error e => rw [henc] at hm; exact Except.noConfusion hm
    | ok enc =>
      rw [henc] at hm
      injection hm with hm
      subst hm
      exact ⟨rfl, rfl, rfl, rfl, rfl, rfl, rfl, rfl, rfl, rfl, rfl, rfl⟩
  · intro m hm
    unfold init at hm
    rw [if_neg (by decide)] at hm
    cases hbg : build_graph hp fw emb til with
    | error e => rw [hbg] at hm; exact Except.noConfusion hm
    | ok logit =>
      simp only [hbg, if_true] at hm
      cases hgen : generate_prediction hp fw logit with
      | error e =>
        simp only [hgen] at hm
        exact Except.noConfusion hm
      | ok sw =>
        simp only [hgen] at hm
        rw [if_neg (by decide)] at hm
        injection hm with hm
        subst hm
        exact ⟨rfl, rfl, rfl, rfl, rfl, rfl, rfl, rfl, rfl, rfl⟩
  · intro mode m hmode hm
    unfold init at hm
    have hne : mode ≠ "encode" := by
      rcases hmode with rfl | rfl <;> decide
    have hni : mode ≠ "infer" := by
      rcases hmode with rfl | rfl <;> decide
    rw [if_neg hne] at hm
    cases hbg : build_graph hp fw emb til with
    | error e => rw [hbg] at hm; exact Except.noConfusion hm
    | ok logit =>
      simp only [hbg] at hm
      rw [if_neg hni] at hm
      cases hdec : apply_learning_rate_decay hp with
      | error e =>
        simp only [hdec] at hm
        rw [if_pos hmode] at hm
        exact Except.noConfusion hm
      | ok dlr =>
        simp only [hdec] at hm
        rw [if_pos hmode] at hm
        cases hopt : initOptimizer hp dlr with
        | error e =>
          simp only [hopt] at hm
          exact Except.noConfusion hm
        | ok opt =>
          simp only [hopt] at hm
          injection hm with hm
          subst hm
          exact ⟨rfl, rfl, rfl, rfl, rfl, rfl, rfl⟩
  · intro mode m h1 h2 hm
    unfold init at hm
    have hto : ¬(mode = "train" ∨ mode = "eval") := by
      rintro (rfl | rfl)
      · exact h1 rfl
      · exact h2 rfl
    by_cases h3 : mode = "encode"
    · rw [if_pos h3] at hm
      cases henc : build_encoding_graph hp fw emb til with
      | error e => rw [henc] at hm; exact Except.noConfusion hm
      | ok enc =>
        rw [henc] at hm
        injection hm with hm
        subst hm
        exact ⟨rfl, rfl, rfl, rfl, rfl⟩
    · rw [if_neg h3] at hm
      cases hbg : build_graph hp fw emb til with
      | error e => rw [hbg] at hm; exact Except.noConfusion hm
      | ok logit =>
        simp only [hbg] at hm
        by_cases h4 : mode = "infer"
        · rw [if_pos h4] at hm
          cases hgen : generate_prediction hp fw logit with
          | error e =>
            simp only [hgen] at hm
            exact Except.noConfusion hm
          | ok sw =>
            simp only [hgen] at hm
            rw [if_neg hto] at hm
            injection hm with hm
            subst hm
            exact ⟨rfl, rfl, rfl, rfl, rfl⟩
        · rw [if_neg h4] at hm
          simp only [hto, if_false] at hm
          injection hm with hm
          subst hm
          exact ⟨rfl, rfl, rfl, rfl, rfl⟩

/-- Claim C1 witness: the theorem instantiated on the concrete
hyperparameters and framework, with modes "encode", "infer", "train" and
the unrecognized mode "generate", for which the constructor succeeds and
produces the models mEncodeW, mInferW, mTrainW, mOtherW. -/
theorem claim_c1_witness :
    (mEncodeW.encoder_output.isSome = true
      ∧ mEncodeW.encoder_output_length = some lW
      ∧ mEncodeW.decoder_built = false ∧ mEncodeW.logit = none
      ∧ mEncodeW.infer_sample_id = none ∧ mEncodeW.infer_sample_word = none
      ∧ mEncodeW.infer_summary_built = false
      ∧ mEncodeW.train_loss = none ∧ mEncodeW.decayed_learning_rate = none
      ∧ mEncodeW.optimizer = none ∧ mEncodeW.update_model = none
      ∧ mEncodeW.train_summary = none)
    ∧ (mInferW.decoder_built = true ∧ mInferW.logit.isSome = true
      ∧ mInferW.infer_sample_id.isSome = true
      ∧ mInferW.infer_sample_word.isSome = true
      ∧ mInferW.infer_summary_built = true
      ∧ mInferW.train_loss = none ∧ mInferW.decayed_learning_rate = none
      ∧ mInferW.optimizer = none ∧ mInferW.update_model = none
      ∧ mInferW.train_summary = none)
    ∧ (mTrainW.decoder_built = true ∧ mTrainW.logit.isSome = true
      ∧ mTrainW.train_loss.isSome = true
      ∧ mTrainW.decayed_learning_rate.isSome = true
      ∧ mTrainW.optimizer.isSome = true ∧ mTrainW.update_model.isSome = true
      ∧ mTrainW.train_summary.isSome = true)
    ∧ (mOtherW.train_loss = none ∧ mOtherW.decayed_learning_rate = none
      ∧ mOtherW.optimizer = none ∧ mOtherW.update_model = none
      ∧ mOtherW.train_summary = none) :=
  ⟨(claim_c1 hpW fwW embW lW lW).1 mEncodeW rfl,
   (claim_c1 hpW fwW embW lW lW).2.1 mInferW rfl,
   (claim_c1 hpW fwW embW lW lW).2.2.1 "train" mTrainW (Or.inl rfl) rfl,
   (claim_c1 hpW fwW embW lW lW).2.2.2 "generate" mOtherW (by decide) (by decide) rfl⟩

end LM
